import Mathlib

/-!
Verification development for the AQL client module (`arango/aql.py`).

The module is a thin request/response mapping layer over an HTTP API.  We
embed it shallowly:

* JSON values are the inductive `JVal`; Python dicts are ordered association
  lists (`Dict`) with Python semantics: assignment (`dIns`) overwrites an
  existing key in place or appends a fresh key at the end, `pop` removes a
  key (`dErase`), `dict.update` (`dUpdate`) folds assignments left to right.
* `json.dumps` (default separators, `ensure_ascii=True`) is `dumps`.
* A request descriptor is `Request`; a response descriptor is `Response`
  (success flag, server error code, parsed JSON body).
* Each `response_handler` closure of the source becomes a total function
  returning `Except PyExc α`; Python exceptions (the per-operation wrapper
  errors, plus `KeyError`/`TypeError` raised by subscripting) are the
  constructors of `PyExc`.  The model covers the JSON-object (and, where the
  source handles them, null/empty) body shapes the server contract sends;
  other body shapes are mapped to `PyExc.typeError`.
-/

inductive JVal where
  | null : JVal
  | bool : Bool → JVal
  | num : Int → JVal
  | str : String → JVal
  | arr : List JVal → JVal
  | obj : List (String × JVal) → JVal

/-- A Python dict with JSON values: an ordered association list. -/
abbrev Dict := List (String × JVal)

/-- Python `d[k]`: first (and for genuine dicts, only) binding of `k`. -/
def dLookup : Dict → String → Option JVal
  | [], _ => none
  | (k', v) :: t, k => if k' = k then some v else dLookup t k

/-- Python `d[k] = v`: overwrite in place if `k` is present, else append. -/
def dIns : Dict → String → JVal → Dict
  | [], k, v => [(k, v)]
  | (k', v') :: t, k, v => if k' = k then (k', v) :: t else (k', v') :: dIns t k v

/-- Insert a key only when a value is present (models the
`if x is not None: d[k] = x` pattern of the source). -/
def optIns (l : Dict) (k : String) (v : Option JVal) : Dict :=
  match v with
  | some x => dIns l k x
  | none => l

/-- Python `d.pop(k, None)`: drop the binding of `k` (dict keys are unique,
so dropping every binding coincides with dropping the one binding). -/
def dErase (l : Dict) (k : String) : Dict :=
  l.filter (fun kv => kv.1 != k)

/-- Python `d.update(m)`: assign every binding of `m` into `d`, in order. -/
def dUpdate (l m : Dict) : Dict :=
  m.foldl (fun acc kv => dIns acc kv.1 kv.2) l

/-- Keys of a dict, in order. -/
def dKeys (l : Dict) : List String := l.map Prod.fst

/-- Python `d[new] = d.pop(old)` guarded by `if old in d`, as used by the
formatting helpers of the source. -/
def dRename (b : Dict) (old new : String) : Dict :=
  match dLookup b old with
  | some v => dIns (dErase b old) new v
  | none => b

/-- Hex digit (lower case), as produced by `json.dumps` escapes. -/
def hexDigit (n : Nat) : Char :=
  if n < 10 then Char.ofNat (48 + n) else Char.ofNat (87 + n)

/-- A `\uXXXX` escape. -/
def uEscape (n : Nat) : String :=
  "\\u" ++ String.mk [hexDigit (n / 4096 % 16), hexDigit (n / 256 % 16),
    hexDigit (n / 16 % 16), hexDigit (n % 16)]

/-- Escape of one character inside a JSON string literal, following
`json.dumps` with `ensure_ascii=True`. -/
def escapeChar (c : Char) : String :=
  if c = '\"' then ("\\\"")
  else if c = '\\' then ("\\\\")
  else if c = '\n' then ("\\n")
  else if c = '\t' then ("\\t")
  else if c = '\r' then ("\\r")
  else if c = Char.ofNat 8 then ("\\b")
  else if c = Char.ofNat 12 then ("\\f")
  else if c.toNat < 32 then uEscape c.toNat
  else if c.toNat < 128 then String.singleton c
  else if c.toNat < 65536 then uEscape c.toNat
  else uEscape (55296 + (c.toNat - 65536) / 1024) ++ uEscape (56320 + (c.toNat - 65536) % 1024)

/-- A JSON string literal, as produced by `json.dumps`. -/
def jsonStr (s : String) : String :=
  "\"" ++ String.join (s.data.map escapeChar) ++ "\""

mutual

/-- Python `json.dumps` with its default separators `(", ", ": ")`. -/
def dumps : JVal → String
  | .null => "null"
  | .bool true => "true"
  | .bool false => "false"
  | .num n => toString n
  | .str s => jsonStr s
  | .arr xs => "[" ++ dumpsList xs ++ "]"
  | .obj xs => "\x7b" ++ dumpsObj xs ++ "\x7d"

/-- Comma-separated dump of array elements. -/
def dumpsList : List JVal → String
  | [] => ""
  | [x] => dumps x
  | x :: y :: xs => dumps x ++ ", " ++ dumpsList (y :: xs)

/-- Comma-separated dump of object members. -/
def dumpsObj : List (String × JVal) → String
  | [] => ""
  | [(k, v)] => jsonStr k ++ ": " ++ dumps v
  | (k, v) :: y :: xs => jsonStr k ++ ": " ++ dumps v ++ ", " ++ dumpsObj (y :: xs)

end

/-- The value `json.dumps` sees for a `bind_vars` argument: a dict, or
Python `None` (dumped as `null`). -/
def jv_of_obj : Option Dict → JVal
  | none => JVal.null
  | some d => JVal.obj d

/-- The request descriptor built by the source (`arango.request.Request`):
method, endpoint, JSON body, query params, transaction-mode command string,
and the out-of-band read/write collection declarations. -/
structure Request where
  method : String
  endpoint : String
  data : Option Dict
  params : Option Dict
  command : Option String
  read : Option (List String)
  write : Option (List String)

/-- The response descriptor a handler receives: success flag, body-embedded
server error code, parsed JSON body. -/
structure Response where
  is_success : Bool
  error_code : Option Int
  body : JVal

/-- Exceptions a response handler can raise: one wrapper error per
operation (mirroring `arango.exceptions`), plus the Python `KeyError` /
`TypeError` that subscripting a body can raise. -/
inductive PyExc where
  | aqlQueryExplainError
  | aqlQueryValidateError
  | aqlQueryExecuteError
  | aqlQueryListError
  | aqlQueryClearError
  | aqlQueryTrackingGetError
  | aqlQueryTrackingSetError
  | aqlQueryKillError
  | aqlFunctionCreateError
  | aqlFunctionDeleteError
  | aqlFunctionListError
  | aqlCacheEntriesError
  | aqlCacheClearError
  | aqlCacheConfigureError
  | aqlCachePropertiesError
  | keyError
  | typeError
deriving DecidableEq

/-- Result cursor (external collaborator), constructed from the raw body. -/
structure Cursor where
  body : JVal

/-- Subscript a body as a dict; non-object bodies raise `TypeError`. -/
def asObj : JVal → Except PyExc Dict
  | JVal.obj d => Except.ok d
  | _ => Except.error PyExc.typeError

/-- Model of `AQL._format_tracking`: drop `code`/`error`, rename the camelCase wire
fields to snake_case (`enabled` is unchanged). -/
def format_tracking (body : Dict) : Dict :=
  let b := dErase (dErase body ("code")) ("error")
  let b := dRename b ("maxQueryStringLength") ("max_query_string_length")
  let b := dRename b ("maxSlowQueries") ("max_slow_queries")
  let b := dRename b ("slowQueryThreshold") ("slow_query_threshold")
  let b := dRename b ("trackBindVars") ("track_bind_vars")
  dRename b ("trackSlowQueries") ("track_slow_queries")

/-- One record of `AQL._format_queries` (non-dict records are returned
unchanged; the server contract sends dicts). -/
def format_query_item : JVal → JVal
  | JVal.obj d => JVal.obj (dRename (dRename d ("bindVars") ("bind_vars")) ("runTime") ("runtime"))
  | v => v

/-- Model of `AQL._format_queries`: rename `bindVars`/`runTime` on every record. -/
def format_queries (items : List JVal) : List JVal :=
  items.map format_query_item

/-- The nested `options` dict built by `AQL.execute` (source lines 259-279),
fields inserted in source order. -/
def execute_options (full_count : Option Bool) (max_plans : Option Int)
    (optimizer_rules : Option (List String)) (fail_on_warning : Option Bool)
    (profile : Option Bool) (max_transaction_size : Option Int)
    (max_warning_count : Option Int) (intermediate_commit_count : Option Int)
    (intermediate_commit_size : Option Int) (satellite_sync_wait : Option Int) : Dict :=
  let o : Dict := []
  let o := optIns o ("fullCount") (full_count.map JVal.bool)
  let o := optIns o ("maxNumberOfPlans") (max_plans.map JVal.num)
  let o := optIns o ("optimizer")
    (optimizer_rules.map (fun rs => JVal.obj [(("rules"), JVal.arr (rs.map JVal.str))]))
  let o := optIns o ("failOnWarning") (fail_on_warning.map JVal.bool)
  let o := optIns o ("profile") (profile.map JVal.bool)
  let o := optIns o ("maxTransactionSize") (max_transaction_size.map JVal.num)
  let o := optIns o ("maxWarningCount") (max_warning_count.map JVal.num)
  let o := optIns o ("intermediateCommitCount") (intermediate_commit_count.map JVal.num)
  let o := optIns o ("intermediateCommitSize") (intermediate_commit_size.map JVal.num)
  optIns o ("satelliteSyncWait") (satellite_sync_wait.map JVal.num)

/-- The `data` dict of `AQL.execute` before the options block (source lines
247-257), fields inserted in source order. -/
def execute_data_base (query : String) (count : Bool) (batch_size ttl : Option Int)
    (bind_vars : Option Dict) (cache : Option Bool) (memory_limit : Option Int) : Dict :=
  let data : Dict := [(("query"), JVal.str query), (("count"), JVal.bool count)]
  let data := optIns data ("batchSize") (batch_size.map JVal.num)
  let data := optIns data ("ttl") (ttl.map JVal.num)
  let data := optIns data ("bindVars") (bind_vars.map JVal.obj)
  let data := optIns data ("cache") (cache.map JVal.bool)
  optIns data ("memoryLimit") (memory_limit.map JVal.num)

/-- The full request body of `AQL.execute` (source lines 247-282): the base
dict, then `if options: data['options'] = options`, then
`data.update(options)`.  Parameter order follows the source signature. -/
def execute_data (query : String) (count : Bool) (batch_size ttl : Option Int)
    (bind_vars : Option Dict) (full_count : Option Bool) (max_plans : Option Int)
    (optimizer_rules : Option (List String)) (cache : Option Bool)
    (memory_limit : Option Int) (fail_on_warning profile : Option Bool)
    (max_transaction_size max_warning_count intermediate_commit_count
      intermediate_commit_size satellite_sync_wait : Option Int) : Dict :=
  let data := execute_data_base query count batch_size ttl bind_vars cache memory_limit
  let options := execute_options full_count max_plans optimizer_rules fail_on_warning
    profile max_transaction_size max_warning_count intermediate_commit_count
    intermediate_commit_size satellite_sync_wait
  let data := if options.isEmpty then data else dIns data ("options") (JVal.obj options)
  dUpdate data options

/-- Request built by `AQL.execute` (source lines 284-297): the request descriptor, including
the transaction-mode command string
`'db._query({}, {}, {}).toArray()'.format(dumps(query), dumps(bind_vars),
dumps(data))` built exactly when `self._is_transaction` holds. -/
def execute (is_transaction : Bool) (query : String) (count : Bool)
    (batch_size ttl : Option Int) (bind_vars : Option Dict)
    (full_count : Option Bool) (max_plans : Option Int)
    (optimizer_rules : Option (List String)) (cache : Option Bool)
    (memory_limit : Option Int) (fail_on_warning profile : Option Bool)
    (max_transaction_size max_warning_count intermediate_commit_count
      intermediate_commit_size satellite_sync_wait : Option Int)
    (read_collections write_collections : Option (List String)) : Request :=
  let data := execute_data query count batch_size ttl bind_vars full_count max_plans
    optimizer_rules cache memory_limit fail_on_warning profile max_transaction_size
    max_warning_count intermediate_commit_count intermediate_commit_size
    satellite_sync_wait
  let command :=
    if is_transaction then
      some ("db._query(" ++ dumps (JVal.str query) ++ ", " ++ dumps (jv_of_obj bind_vars)
        ++ ", " ++ dumps (JVal.obj data) ++ ").toArray()")
    else none
  ⟨("post"), ("/_api/cursor"), some data, none, command, read_collections, write_collections⟩

/-- Success branch of the `AQL.explain` response handler (source lines
124-127): `resp.body['plan']` if present, else `resp.body['plans']`. -/
def explain_on_success (body : JVal) : Except PyExc JVal :=
  match asObj body with
  | Except.error e => Except.error e
  | Except.ok b =>
    match dLookup b ("plan") with
    | some v => Except.ok v
    | none =>
      match dLookup b ("plans") with
      | some v => Except.ok v
      | none => Except.error PyExc.keyError

/-- Response handler of `AQL.explain` (source lines 121-127). -/
def explain_response_handler (resp : Response) : Except PyExc JVal :=
  if !resp.is_success then Except.error PyExc.aqlQueryExplainError
  else explain_on_success resp.body

/-- Success branch of the `AQL.validate` response handler (source lines
149-154): strip `code`/`error`, rename `bindVars`. -/
def validate_on_success (body : JVal) : Except PyExc Dict :=
  match asObj body with
  | Except.error e => Except.error e
  | Except.ok b =>
    Except.ok (dRename (dErase (dErase b ("code")) ("error")) ("bindVars") ("bind_vars"))

/-- Response handler of `AQL.validate` (source lines 146-154). -/
def validate_response_handler (resp : Response) : Except PyExc Dict :=
  if !resp.is_success then Except.error PyExc.aqlQueryValidateError
  else validate_on_success resp.body

/-- Success branch of the `AQL.execute` response handler (source line 302):
wrap the body in a cursor. -/
def execute_on_success (body : JVal) : Except PyExc Cursor :=
  Except.ok ⟨body⟩

/-- Response handler of `AQL.execute` (source lines 299-302). -/
def execute_response_handler (resp : Response) : Except PyExc Cursor :=
  if !resp.is_success then Except.error PyExc.aqlQueryExecuteError
  else execute_on_success resp.body

/-- Success branch of the `AQL.kill` response handler (source line 323). -/
def kill_on_success (body : JVal) : Except PyExc Bool :=
  Except.ok true

/-- Response handler of `AQL.kill` (source lines 320-323). -/
def kill_response_handler (resp : Response) : Except PyExc Bool :=
  if !resp.is_success then Except.error PyExc.aqlQueryKillError
  else kill_on_success resp.body

/-- Success branch of the `AQL.queries` / `AQL.slow_queries` response
handlers (source lines 342 and 361): `_format_queries` over a list body. -/
def queries_on_success (body : JVal) : Except PyExc JVal :=
  match body with
  | JVal.arr items => Except.ok (JVal.arr (format_queries items))
  | _ => Except.error PyExc.typeError

/-- Response handler of `AQL.queries` (source lines 339-342). -/
def queries_response_handler (resp : Response) : Except PyExc JVal :=
  if !resp.is_success then Except.error PyExc.aqlQueryListError
  else queries_on_success resp.body

/-- Response handler of `AQL.slow_queries` (source lines 358-361). -/
def slow_queries_response_handler (resp : Response) : Except PyExc JVal :=
  if !resp.is_success then Except.error PyExc.aqlQueryListError
  else queries_on_success resp.body

/-- Response handler of `AQL.clear_slow_queries` (source lines 377-380). -/
def clear_slow_queries_response_handler (resp : Response) : Except PyExc Bool :=
  if !resp.is_success then Except.error PyExc.aqlQueryClearError
  else kill_on_success resp.body

/-- Success branch of the `AQL.tracking` / `AQL.set_tracking` response
handlers (source lines 399 and 439): `_format_tracking` of the body. -/
def tracking_on_success (body : JVal) : Except PyExc Dict :=
  match asObj body with
  | Except.error e => Except.error e
  | Except.ok b => Except.ok (format_tracking b)

/-- Response handler of `AQL.tracking` (source lines 396-399). -/
def tracking_response_handler (resp : Response) : Except PyExc Dict :=
  if !resp.is_success then Except.error PyExc.aqlQueryTrackingGetError
  else tracking_on_success resp.body

/-- The request body of `AQL.set_tracking` (source lines 416-428): only the
explicitly provided fields, inserted in source order. -/
def set_tracking_data (enabled max_slow_queries slow_query_threshold
    max_query_string_length track_bind_vars track_slow_queries : Option JVal) : Dict :=
  let data : Dict := []
  let data := optIns data ("enabled") enabled
  let data := optIns data ("maxSlowQueries") max_slow_queries
  let data := optIns data ("maxQueryStringLength") max_query_string_length
  let data := optIns data ("slowQueryThreshold") slow_query_threshold
  let data := optIns data ("trackBindVars") track_bind_vars
  optIns data ("trackSlowQueries") track_slow_queries

/-- Response handler of `AQL.set_tracking` (source lines 436-439). -/
def set_tracking_response_handler (resp : Response) : Except PyExc Dict :=
  if !resp.is_success then Except.error PyExc.aqlQueryTrackingSetError
  else tracking_on_success resp.body

/-- One entry of the `functions` result list (non-dict entries are returned
unchanged; the server contract sends dicts). -/
def format_function_item : JVal → JVal
  | JVal.obj d => JVal.obj (dRename d ("isDeterministic") ("is_deterministic"))
  | v => v

/-- The `result`-field processing of `AQL.functions` (source lines 461-468):
an absent `result` yields `[]`, a list is formatted per entry. -/
def functions_result (d : Dict) : Except PyExc JVal :=
  match dLookup d ("result") with
  | none => Except.ok (JVal.arr [])
  | some (JVal.arr items) => Except.ok (JVal.arr (items.map format_function_item))
  | some _ => Except.error PyExc.typeError

/-- Success branch of the `AQL.functions` response handler (source lines
459-468).  `resp.body or {}` collapses a null or empty-list body to the
empty dict; other non-dict body shapes are modelled as `TypeError`. -/
def functions_on_success (body : JVal) : Except PyExc JVal :=
  match body with
  | JVal.obj d => functions_result d
  | JVal.null => functions_result []
  | JVal.arr [] => functions_result []
  | _ => Except.error PyExc.typeError

/-- Response handler of `AQL.functions` (source lines 455-468). -/
def functions_response_handler (resp : Response) : Except PyExc JVal :=
  if !resp.is_success then Except.error PyExc.aqlFunctionListError
  else functions_on_success resp.body

/-- Success branch of the `AQL.create_function` response handler (source
line 493): `{'is_new': resp.body['isNewlyCreated']}`. -/
def create_function_on_success (body : JVal) : Except PyExc Dict :=
  match asObj body with
  | Except.error e => Except.error e
  | Except.ok b =>
    match dLookup b ("isNewlyCreated") with
    | some v => Except.ok [(("is_new"), v)]
    | none => Except.error PyExc.keyError

/-- Response handler of `AQL.create_function` (source lines 490-493). -/
def create_function_response_handler (resp : Response) : Except PyExc Dict :=
  if !resp.is_success then Except.error PyExc.aqlFunctionCreateError
  else create_function_on_success resp.body

/-- Result of `AQL.delete_function`: Python `False`, or `{'deleted': n}`. -/
inductive DeleteFunctionRet where
  | falseRet : DeleteFunctionRet
  | deleted : JVal → DeleteFunctionRet

/-- Response handler of `AQL.delete_function` (source lines 521-526): the
error-code 1582 test comes first, then the success test. -/
def delete_function_response_handler (ignore_missing : Bool) (resp : Response) :
    Except PyExc DeleteFunctionRet :=
  if resp.error_code == some 1582 && ignore_missing then
    Except.ok DeleteFunctionRet.falseRet
  else if !resp.is_success then Except.error PyExc.aqlFunctionDeleteError
  else match asObj resp.body with
    | Except.error e => Except.error e
    | Except.ok b =>
      match dLookup b ("deletedCount") with
      | some v => Except.ok (DeleteFunctionRet.deleted v)
      | none => Except.error PyExc.keyError

/-- Success branch of the `AQLQueryCache.properties` /
`AQLQueryCache.configure` response handlers (source lines 552-555 and
586-589): `{'mode': body['mode'], 'limit': body['maxResults']}`. -/
def cache_properties_on_success (body : JVal) : Except PyExc Dict :=
  match asObj body with
  | Except.error e => Except.error e
  | Except.ok b =>
    match dLookup b ("mode") with
    | none => Except.error PyExc.keyError
    | some m =>
      match dLookup b ("maxResults") with
      | none => Except.error PyExc.keyError
      | some r => Except.ok [(("mode"), m), (("limit"), r)]

/-- Response handler of `AQLQueryCache.properties` (source lines 549-555). -/
def cache_properties_response_handler (resp : Response) : Except PyExc Dict :=
  if !resp.is_success then Except.error PyExc.aqlCachePropertiesError
  else cache_properties_on_success resp.body

/-- Response handler of `AQLQueryCache.configure` (source lines 583-589). -/
def cache_configure_response_handler (resp : Response) : Except PyExc Dict :=
  if !resp.is_success then Except.error PyExc.aqlCacheConfigureError
  else cache_properties_on_success resp.body

/-- Success branch of the `AQLQueryCache.entries` response handler (source
line 608): the body unchanged. -/
def entries_on_success (body : JVal) : Except PyExc JVal :=
  Except.ok body

/-- Response handler of `AQLQueryCache.entries` (source lines 605-608). -/
def cache_entries_response_handler (resp : Response) : Except PyExc JVal :=
  if !resp.is_success then Except.error PyExc.aqlCacheEntriesError
  else entries_on_success resp.body

/-- Response handler of `AQLQueryCache.clear` (source lines 624-627). -/
def cache_clear_response_handler (resp : Response) : Except PyExc Bool :=
  if !resp.is_success then Except.error PyExc.aqlCacheClearError
  else kill_on_success resp.body

/-- The uniform error policy of a response handler: it produces the
operation's single error kind exactly on non-success responses, and never
reads the response's error code. -/
def raisesExactlyOnFailure {α : Type} (h : Response → Except PyExc α)
    (e : PyExc) : Prop :=
  (∀ s c b, (h ⟨s, c, b⟩ = Except.error e ↔ s = false)) ∧
  (∀ s c c' b, h ⟨s, c, b⟩ = h ⟨s, c', b⟩)

/-! ### Dictionary lemmas -/

theorem Option_elim_none_some {α : Type} (o : Option α) : o.elim none some = o := by
  cases o <;> rfl

theorem dKeys_nil : dKeys [] = [] := rfl

theorem dKeys_cons (k : String) (v : JVal) (t : Dict) :
    dKeys ((k, v) :: t) = k :: dKeys t := rfl

theorem dLookup_dIns (l : Dict) (k k' : String) (v : JVal) :
    dLookup (dIns l k' v) k = if k' = k then some v else dLookup l k := by
  induction l with
  | nil => simp [dIns, dLookup]
  | cons hd t ih =>
    obtain ⟨k₁, v₁⟩ := hd
    by_cases h1 : k₁ = k'
    · subst h1
      by_cases h2 : k₁ = k <;> simp [dIns, dLookup, h2]
    · by_cases h2 : k' = k
      · subst h2
        simp [dIns, dLookup, h1, ih]
      · simp [dIns, dLookup, h1, h2, ih]

theorem dLookup_optIns (l : Dict) (k k' : String) (v : Option JVal) :
    dLookup (optIns l k' v) k = if k' = k then v.elim (dLookup l k) some else dLookup l k := by
  cases v with
  | none => simp [optIns, Option.elim]
  | some x => simp [optIns, dLookup_dIns, Option.elim]

theorem dIns_nil (k : String) (v : JVal) : dIns [] k v = [(k, v)] := rfl

theorem dIns_cons_self (k : String) (v₁ v : JVal) (t : Dict) :
    dIns ((k, v₁) :: t) k v = (k, v) :: t := by
  simp [dIns]

theorem dIns_cons_ne (k₁ k : String) (v₁ v : JVal) (t : Dict) (h : ¬ (k₁ = k)) :
    dIns ((k₁, v₁) :: t) k v = (k₁, v₁) :: dIns t k v := by
  simp [dIns, h]

theorem dErase_nil (k : String) : dErase [] k = [] := rfl

theorem dErase_cons_self (k : String) (v : JVal) (t : Dict) :
    dErase ((k, v) :: t) k = dErase t k := by
  simp [dErase, List.filter_cons]

theorem dErase_cons_ne (k₁ k : String) (v : JVal) (t : Dict) (h : ¬ (k₁ = k)) :
    dErase ((k₁, v) :: t) k = (k₁, v) :: dErase t k := by
  simp [dErase, List.filter_cons, h]

theorem dLookup_cons (k₁ k : String) (v₁ : JVal) (t : Dict) :
    dLookup ((k₁, v₁) :: t) k = if k₁ = k then some v₁ else dLookup t k := rfl

theorem dLookup_dErase (l : Dict) (k k' : String) :
    dLookup (dErase l k') k = if k' = k then none else dLookup l k := by
  induction l with
  | nil => simp [dErase, dLookup]
  | cons hd t ih =>
    obtain ⟨k₁, v₁⟩ := hd
    by_cases h1 : k₁ = k'
    · subst h1
      rw [dErase_cons_self, ih]
      by_cases h2 : k₁ = k
      · rw [if_pos h2, if_pos h2]
      · rw [if_neg h2, if_neg h2, dLookup_cons, if_neg h2]
    · rw [dErase_cons_ne _ _ _ _ h1, dLookup_cons, ih, dLookup_cons]
      by_cases h2 : k₁ = k
      · have hk : ¬ (k' = k) := fun hh => h1 (h2.trans hh.symm)
        rw [if_pos h2, if_neg hk, if_pos h2]
      · rw [if_neg h2]
        by_cases h3 : k' = k
        · rw [if_pos h3, if_pos h3]
        · rw [if_neg h3, if_neg h3, if_neg h2]

theorem dUpdate_nil (l : Dict) : dUpdate l [] = l := rfl

theorem dUpdate_cons (l : Dict) (k : String) (v : JVal) (m : Dict) :
    dUpdate l ((k, v) :: m) = dUpdate (dIns l k v) m := rfl

theorem dLookup_dUpdate_of_none (l m : Dict) (k : String) (h : dLookup m k = none) :
    dLookup (dUpdate l m) k = dLookup l k := by
  induction m generalizing l with
  | nil => rfl
  | cons hd t ih =>
    obtain ⟨k₁, v₁⟩ := hd
    simp only [dLookup] at h
    by_cases h1 : k₁ = k
    · simp [h1] at h
    · rw [if_neg h1] at h
      rw [dUpdate_cons, ih _ h, dLookup_dIns, if_neg h1]

theorem dLookup_eq_none_of_not_mem (m : Dict) (k : String) (h : k ∉ dKeys m) :
    dLookup m k = none := by
  induction m with
  | nil => rfl
  | cons hd t ih =>
    obtain ⟨k₁, v₁⟩ := hd
    rw [dKeys_cons, List.mem_cons] at h
    push_neg at h
    simp only [dLookup]
    rw [if_neg (fun hh => h.1 hh.symm)]
    exact ih h.2

theorem mem_dKeys_dIns (l : Dict) (k a : String) (v : JVal) :
    a ∈ dKeys (dIns l k v) ↔ a ∈ dKeys l ∨ a = k := by
  induction l with
  | nil => simp [dIns, dKeys_cons, dKeys_nil]
  | cons hd t ih =>
    obtain ⟨k₁, v₁⟩ := hd
    by_cases h1 : k₁ = k
    · subst h1
      rw [dIns_cons_self, dKeys_cons, dKeys_cons]
      simp only [List.mem_cons]
      tauto
    · rw [dIns_cons_ne _ _ _ _ _ h1, dKeys_cons, dKeys_cons]
      simp only [List.mem_cons, ih]
      tauto

theorem dKeys_dIns_nodup (l : Dict) (k : String) (v : JVal) (h : (dKeys l).Nodup) :
    (dKeys (dIns l k v)).Nodup := by
  induction l with
  | nil => simp [dIns, dKeys_cons, dKeys_nil]
  | cons hd t ih =>
    obtain ⟨k₁, v₁⟩ := hd
    rw [dKeys_cons, List.nodup_cons] at h
    by_cases h1 : k₁ = k
    · subst h1
      rw [dIns_cons_self, dKeys_cons, List.nodup_cons]
      exact h
    · rw [dIns_cons_ne _ _ _ _ _ h1, dKeys_cons, List.nodup_cons]
      refine ⟨?_, ih h.2⟩
      intro hmem
      rcases (mem_dKeys_dIns t k k₁ v).mp hmem with hin | heq
      · exact h.1 hin
      · exact h1 heq

theorem dKeys_optIns_nodup (l : Dict) (k : String) (v : Option JVal)
    (h : (dKeys l).Nodup) : (dKeys (optIns l k v)).Nodup := by
  cases v with
  | none => exact h
  | some x => exact dKeys_dIns_nodup l k x h

theorem dLookup_dUpdate_of_some (l m : Dict) (k : String) (v : JVal)
    (h : dLookup m k = some v) (hnd : (dKeys m).Nodup) :
    dLookup (dUpdate l m) k = some v := by
  induction m generalizing l with
  | nil => simp [dLookup] at h
  | cons hd t ih =>
    obtain ⟨k₁, v₁⟩ := hd
    rw [dKeys_cons, List.nodup_cons] at hnd
    simp only [dLookup] at h
    by_cases h1 : k₁ = k
    · rw [if_pos h1] at h
      have hnone : dLookup t k = none :=
        dLookup_eq_none_of_not_mem t k (h1 ▸ hnd.1)
      rw [dUpdate_cons, dLookup_dUpdate_of_none _ _ _ hnone, dLookup_dIns, if_pos h1]
      exact h
    · rw [if_neg h1] at h
      rw [dUpdate_cons]
      exact ih (dIns l k₁ v₁) h hnd.2

theorem dIns_ne_nil (l : Dict) (k : String) (v : JVal) : dIns l k v ≠ [] := by
  cases l with
  | nil => simp [dIns]
  | cons hd t =>
    obtain ⟨k₁, v₁⟩ := hd
    simp only [dIns]
    split <;> simp

theorem optIns_eq_nil (l : Dict) (k : String) (v : Option JVal) :
    optIns l k v = [] ↔ l = [] ∧ v = none := by
  cases v with
  | none => simp [optIns]
  | some x => simp [optIns, dIns_ne_nil]

theorem dLookup_dRename (b : Dict) (old new k : String) :
    dLookup (dRename b old new) k =
      if new = k then (dLookup b old).elim (dLookup b new) some
      else if old = k then none
      else dLookup b k := by
  unfold dRename
  cases h : dLookup b old with
  | none =>
    by_cases h1 : new = k
    · subst h1
      simp [h, Option.elim]
    · by_cases h2 : old = k
      · subst h2
        simp [h, h1]
      · simp [h1, h2]
  | some v =>
    rw [dLookup_dIns]
    by_cases h1 : new = k
    · subst h1
      simp [h, Option.elim]
    · rw [if_neg h1, dLookup_dErase]
      by_cases h2 : old = k <;> simp [h, h1, h2]

/-! ### Lookup characterization of the `execute` payload -/

theorem dLookup_execute_options_ne (full_count : Option Bool) (max_plans : Option Int)
    (optimizer_rules : Option (List String)) (fail_on_warning profile : Option Bool)
    (mts mwc icc ics ssw : Option Int) (k : String)
    (h1 : ¬(("fullCount" : String) = k)) (h2 : ¬(("maxNumberOfPlans" : String) = k))
    (h3 : ¬(("optimizer" : String) = k)) (h4 : ¬(("failOnWarning" : String) = k))
    (h5 : ¬(("profile" : String) = k)) (h6 : ¬(("maxTransactionSize" : String) = k))
    (h7 : ¬(("maxWarningCount" : String) = k))
    (h8 : ¬(("intermediateCommitCount" : String) = k))
    (h9 : ¬(("intermediateCommitSize" : String) = k))
    (h10 : ¬(("satelliteSyncWait" : String) = k)) :
    dLookup (execute_options full_count max_plans optimizer_rules fail_on_warning
      profile mts mwc icc ics ssw) k = none := by
  simp [execute_options, dLookup_optIns, dLookup, h1, h2, h3, h4, h5, h6, h7, h8, h9, h10]

theorem dLookup_execute_data_base_ne (query : String) (count : Bool)
    (batch_size ttl : Option Int) (bind_vars : Option Dict) (cache : Option Bool)
    (memory_limit : Option Int) (k : String)
    (h1 : ¬(("query" : String) = k)) (h2 : ¬(("count" : String) = k))
    (h3 : ¬(("batchSize" : String) = k)) (h4 : ¬(("ttl" : String) = k))
    (h5 : ¬(("bindVars" : String) = k)) (h6 : ¬(("cache" : String) = k))
    (h7 : ¬(("memoryLimit" : String) = k)) :
    dLookup (execute_data_base query count batch_size ttl bind_vars cache memory_limit) k
      = none := by
  simp [execute_data_base, dLookup_optIns, dLookup, h1, h2, h3, h4, h5, h6, h7]

theorem execute_options_nodup (full_count : Option Bool) (max_plans : Option Int)
    (optimizer_rules : Option (List String)) (fail_on_warning profile : Option Bool)
    (mts mwc icc ics ssw : Option Int) :
    (dKeys (execute_options full_count max_plans optimizer_rules fail_on_warning
      profile mts mwc icc ics ssw)).Nodup := by
  simp only [execute_options]
  apply dKeys_optIns_nodup
  apply dKeys_optIns_nodup
  apply dKeys_optIns_nodup
  apply dKeys_optIns_nodup
  apply dKeys_optIns_nodup
  apply dKeys_optIns_nodup
  apply dKeys_optIns_nodup
  apply dKeys_optIns_nodup
  apply dKeys_optIns_nodup
  apply dKeys_optIns_nodup
  simp [dKeys_nil]

theorem dLookup_execute_data (query : String) (count : Bool)
    (batch_size ttl : Option Int) (bind_vars : Option Dict)
    (full_count : Option Bool) (max_plans : Option Int)
    (optimizer_rules : Option (List String)) (cache : Option Bool)
    (memory_limit : Option Int) (fail_on_warning profile : Option Bool)
    (mts mwc icc ics ssw : Option Int) (k : String)
    (hk : ¬(("options" : String) = k)) :
    dLookup (execute_data query count batch_size ttl bind_vars full_count max_plans
        optimizer_rules cache memory_limit fail_on_warning profile mts mwc icc ics ssw) k =
      (dLookup (execute_options full_count max_plans optimizer_rules fail_on_warning
          profile mts mwc icc ics ssw) k).elim
        (dLookup (execute_data_base query count batch_size ttl bind_vars cache memory_limit) k)
        some := by
  simp only [execute_data]
  cases ho : dLookup (execute_options full_count max_plans optimizer_rules fail_on_warning
      profile mts mwc icc ics ssw) k with
  | some v =>
    rw [dLookup_dUpdate_of_some _ _ _ _ ho
      (execute_options_nodup full_count max_plans optimizer_rules fail_on_warning
        profile mts mwc icc ics ssw)]
    rfl
  | none =>
    rw [dLookup_dUpdate_of_none _ _ _ ho]
    split
    · rfl
    · rw [dLookup_dIns, if_neg hk]
      rfl

theorem dLookup_execute_data_options_key (query : String) (count : Bool)
    (batch_size ttl : Option Int) (bind_vars : Option Dict)
    (full_count : Option Bool) (max_plans : Option Int)
    (optimizer_rules : Option (List String)) (cache : Option Bool)
    (memory_limit : Option Int) (fail_on_warning profile : Option Bool)
    (mts mwc icc ics ssw : Option Int) :
    dLookup (execute_data query count batch_size ttl bind_vars full_count max_plans
        optimizer_rules cache memory_limit fail_on_warning profile mts mwc icc ics ssw)
        ("options") =
      if (execute_options full_count max_plans optimizer_rules fail_on_warning
          profile mts mwc icc ics ssw).isEmpty then none
      else some (JVal.obj (execute_options full_count max_plans optimizer_rules
        fail_on_warning profile mts mwc icc ics ssw)) := by
  simp only [execute_data]
  have ho : dLookup (execute_options full_count max_plans optimizer_rules fail_on_warning
      profile mts mwc icc ics ssw) ("options") = none := by
    apply dLookup_execute_options_ne <;> decide
  rw [dLookup_dUpdate_of_none _ _ _ ho]
  split
  · exact dLookup_execute_data_base_ne query count batch_size ttl bind_vars cache
      memory_limit ("options") (by decide) (by decide) (by decide) (by decide)
      (by decide) (by decide) (by decide)
  · rw [dLookup_dIns, if_pos rfl]

theorem dLookup_eq_none_of_keys_subset (body : Dict) (L : List String) (k : String)
    (h : ∀ kv ∈ body, kv.1 ∈ L) (hk : k ∉ L) : dLookup body k = none := by
  induction body with
  | nil => rfl
  | cons hd t ih =>
    obtain ⟨k₁, v₁⟩ := hd
    have hne : ¬ (k₁ = k) := fun hh => hk (hh ▸ h (k₁, v₁) (List.mem_cons_self _ _))
    rw [dLookup_cons, if_neg hne]
    exact ih (fun kv hkv => h kv (List.mem_cons_of_mem _ hkv))

/-! ### Claims -/

/-- C1: in `AQL.execute`, every optional parameter left unset (`batch_size`,
`ttl`, `bind_vars`, `cache`, `full_count`, `max_plans`, `optimizer_rules`,
`fail_on_warning`, `profile`, `max_transaction_size`, `max_warning_count`,
`intermediate_commit_count`, `intermediate_commit_size`,
`satellite_sync_wait`) contributes no key at all to the request payload —
neither at top level nor inside the nested options dict — with the single
exception of the memory limit: at its default (`0`), the payload carries
`memoryLimit` with value `0`. -/
theorem execute_unset_params_absent (query : String) (count : Bool)
    (batch_size ttl : Option Int) (bind_vars : Option Dict)
    (full_count : Option Bool) (max_plans : Option Int)
    (optimizer_rules : Option (List String)) (cache : Option Bool)
    (memory_limit : Option Int) (fail_on_warning profile : Option Bool)
    (max_transaction_size max_warning_count intermediate_commit_count
      intermediate_commit_size satellite_sync_wait : Option Int) (d o : Dict)
    (hd : d = execute_data query count batch_size ttl bind_vars full_count max_plans
      optimizer_rules cache memory_limit fail_on_warning profile max_transaction_size
      max_warning_count intermediate_commit_count intermediate_commit_size
      satellite_sync_wait)
    (ho : o = execute_options full_count max_plans optimizer_rules fail_on_warning
      profile max_transaction_size max_warning_count intermediate_commit_count
      intermediate_commit_size satellite_sync_wait) :
    (batch_size = none → dLookup d ("batchSize") = none) ∧
    (ttl = none → dLookup d ("ttl") = none) ∧
    (bind_vars = none → dLookup d ("bindVars") = none) ∧
    (cache = none → dLookup d ("cache") = none) ∧
    (full_count = none →
      dLookup d ("fullCount") = none ∧ dLookup o ("fullCount") = none) ∧
    (max_plans = none →
      dLookup d ("maxNumberOfPlans") = none ∧ dLookup o ("maxNumberOfPlans") = none) ∧
    (optimizer_rules = none →
      dLookup d ("optimizer") = none ∧ dLookup o ("optimizer") = none) ∧
    (fail_on_warning = none →
      dLookup d ("failOnWarning") = none ∧ dLookup o ("failOnWarning") = none) ∧
    (profile = none →
      dLookup d ("profile") = none ∧ dLookup o ("profile") = none) ∧
    (max_transaction_size = none →
      dLookup d ("maxTransactionSize") = none ∧
      dLookup o ("maxTransactionSize") = none) ∧
    (max_warning_count = none →
      dLookup d ("maxWarningCount") = none ∧ dLookup o ("maxWarningCount") = none) ∧
    (intermediate_commit_count = none →
      dLookup d ("intermediateCommitCount") = none ∧
      dLookup o ("intermediateCommitCount") = none) ∧
    (intermediate_commit_size = none →
      dLookup d ("intermediateCommitSize") = none ∧
      dLookup o ("intermediateCommitSize") = none) ∧
    (satellite_sync_wait = none →
      dLookup d ("satelliteSyncWait") = none ∧
      dLookup o ("satelliteSyncWait") = none) ∧
    (memory_limit = some 0 → dLookup d ("memoryLimit") = some (JVal.num 0)) := by
  subst hd
  subst ho
  refine ⟨?_, ?_, ?_, ?_, ?_, ?_, ?_, ?_, ?_, ?_, ?_, ?_, ?_, ?_, ?_⟩ <;> intro h
  all_goals first
    | (refine ⟨?_, ?_⟩ <;>
        simp [dLookup_execute_data, execute_options, execute_data_base,
          dLookup_optIns, dLookup, Option.elim, Option_elim_none_some, h])
    | simp [dLookup_execute_data, execute_options, execute_data_base,
        dLookup_optIns, dLookup, Option.elim, Option_elim_none_some, h]

/-- C1 witness: with every optional parameter at its default, the payload
has no `batchSize` key and carries `memoryLimit` with value `0`. -/
theorem execute_unset_params_absent_witness :
    dLookup (execute_data ("q") false none none none none none none none (some 0)
      none none none none none none none) ("batchSize") = none ∧
    dLookup (execute_data ("q") false none none none none none none none (some 0)
      none none none none none none none) ("memoryLimit") = some (JVal.num 0) := by
  have h := execute_unset_params_absent ("q") false none none none none none none
    none (some 0) none none none none none none none _ _ rfl rfl
  exact ⟨h.1 rfl, h.2.2.2.2.2.2.2.2.2.2.2.2.2.2 rfl⟩

/-- C10: in `AQL.execute`, the `memoryLimit` key is present in the payload
iff the `memory_limit` argument is not `None`; passing `None` explicitly
omits the key, and the transmitted value is exactly the argument. -/
theorem execute_memory_limit_present_iff_set (query : String) (count : Bool)
    (batch_size ttl : Option Int) (bind_vars : Option Dict)
    (full_count : Option Bool) (max_plans : Option Int)
    (optimizer_rules : Option (List String)) (cache : Option Bool)
    (memory_limit : Option Int) (fail_on_warning profile : Option Bool)
    (max_transaction_size max_warning_count intermediate_commit_count
      intermediate_commit_size satellite_sync_wait : Option Int) (d : Dict)
    (hd : d = execute_data query count batch_size ttl bind_vars full_count max_plans
      optimizer_rules cache memory_limit fail_on_warning profile max_transaction_size
      max_warning_count intermediate_commit_count intermediate_commit_size
      satellite_sync_wait) :
    dLookup d ("memoryLimit") = memory_limit.map JVal.num ∧
    (memory_limit = none → dLookup d ("memoryLimit") = none) ∧
    (∀ m : Int, memory_limit = some m → dLookup d ("memoryLimit") = some (JVal.num m)) := by
  subst hd
  have hmain : dLookup (execute_data query count batch_size ttl bind_vars full_count
      max_plans optimizer_rules cache memory_limit fail_on_warning profile
      max_transaction_size max_warning_count intermediate_commit_count
      intermediate_commit_size satellite_sync_wait) ("memoryLimit") =
      memory_limit.map JVal.num := by
    simp [dLookup_execute_data, execute_options, execute_data_base,
      dLookup_optIns, dLookup, Option_elim_none_some]
  refine ⟨hmain, fun h => ?_, fun m h => ?_⟩
  · subst h
    simpa using hmain
  · subst h
    simpa using hmain

/-- C10 witness: with `memory_limit` explicitly `None`, the payload has no
`memoryLimit` key. -/
theorem execute_memory_limit_present_iff_set_witness :
    dLookup (execute_data ("q") false none none none none none none none none
      none none none none none none none) ("memoryLimit") = none :=
  (execute_memory_limit_present_iff_set ("q") false none none none none none none
    none none none none none none none none none _ rfl).2.1 rfl

/-- C3: in `AQL.execute`, the nested-option fields (`full_count`,
`max_plans`, `optimizer_rules`, `fail_on_warning`, `profile`,
`max_transaction_size`, `max_warning_count`, `intermediate_commit_count`,
`intermediate_commit_size`, `satellite_sync_wait`) appear both under the
`options` key and merged flat at top level, with the provided values; when
none of them is provided the payload has no `options` key. -/
theorem execute_options_nested_and_flat (query : String) (count : Bool)
    (batch_size ttl : Option Int) (bind_vars : Option Dict)
    (full_count : Option Bool) (max_plans : Option Int)
    (optimizer_rules : Option (List String)) (cache : Option Bool)
    (memory_limit : Option Int) (fail_on_warning profile : Option Bool)
    (max_transaction_size max_warning_count intermediate_commit_count
      intermediate_commit_size satellite_sync_wait : Option Int) (d o : Dict)
    (hd : d = execute_data query count batch_size ttl bind_vars full_count max_plans
      optimizer_rules cache memory_limit fail_on_warning profile max_transaction_size
      max_warning_count intermediate_commit_count intermediate_commit_size
      satellite_sync_wait)
    (ho : o = execute_options full_count max_plans optimizer_rules fail_on_warning
      profile max_transaction_size max_warning_count intermediate_commit_count
      intermediate_commit_size satellite_sync_wait) :
    (o = [] ↔ full_count = none ∧ max_plans = none ∧ optimizer_rules = none ∧
      fail_on_warning = none ∧ profile = none ∧ max_transaction_size = none ∧
      max_warning_count = none ∧ intermediate_commit_count = none ∧
      intermediate_commit_size = none ∧ satellite_sync_wait = none) ∧
    (o = [] → dLookup d ("options") = none) ∧
    (o ≠ [] → dLookup d ("options") = some (JVal.obj o)) ∧
    (dLookup d ("fullCount") = full_count.map JVal.bool ∧
      dLookup o ("fullCount") = full_count.map JVal.bool) ∧
    (dLookup d ("maxNumberOfPlans") = max_plans.map JVal.num ∧
      dLookup o ("maxNumberOfPlans") = max_plans.map JVal.num) ∧
    (dLookup d ("optimizer") =
        optimizer_rules.map (fun rs => JVal.obj [(("rules"), JVal.arr (rs.map JVal.str))]) ∧
      dLookup o ("optimizer") =
        optimizer_rules.map (fun rs => JVal.obj [(("rules"), JVal.arr (rs.map JVal.str))])) ∧
    (dLookup d ("failOnWarning") = fail_on_warning.map JVal.bool ∧
      dLookup o ("failOnWarning") = fail_on_warning.map JVal.bool) ∧
    (dLookup d ("profile") = profile.map JVal.bool ∧
      dLookup o ("profile") = profile.map JVal.bool) ∧
    (dLookup d ("maxTransactionSize") = max_transaction_size.map JVal.num ∧
      dLookup o ("maxTransactionSize") = max_transaction_size.map JVal.num) ∧
    (dLookup d ("maxWarningCount") = max_warning_count.map JVal.num ∧
      dLookup o ("maxWarningCount") = max_warning_count.map JVal.num) ∧
    (dLookup d ("intermediateCommitCount") = intermediate_commit_count.map JVal.num ∧
      dLookup o ("intermediateCommitCount") = intermediate_commit_count.map JVal.num) ∧
    (dLookup d ("intermediateCommitSize") = intermediate_commit_size.map JVal.num ∧
      dLookup o ("intermediateCommitSize") = intermediate_commit_size.map JVal.num) ∧
    (dLookup d ("satelliteSyncWait") = satellite_sync_wait.map JVal.num ∧
      dLookup o ("satelliteSyncWait") = satellite_sync_wait.map JVal.num) := by
  subst hd
  subst ho
  refine ⟨?_, ?_, ?_, ?_, ?_, ?_, ?_, ?_, ?_, ?_, ?_, ?_, ?_⟩
  · constructor
    · intro h0
      simp only [execute_options, optIns_eq_nil, Option.map_eq_none'] at h0
      tauto
    · rintro ⟨h1, h2, h3, h4, h5, h6, h7, h8, h9, h10⟩
      simp [execute_options, h1, h2, h3, h4, h5, h6, h7, h8, h9, h10, optIns]
  · intro h0
    rw [dLookup_execute_data_options_key, if_pos (by simp [h0])]
  · intro h0
    rw [dLookup_execute_data_options_key,
      if_neg (by simpa [List.isEmpty_iff] using h0)]
  all_goals
    refine ⟨?_, ?_⟩ <;>
      simp [dLookup_execute_data, execute_options, execute_data_base,
        dLookup_optIns, dLookup, Option_elim_none_some]

/-- C3 witness: with only `full_count` provided, the payload nests
`fullCount` under `options` and also carries it flat at top level; with no
nested option provided, the payload has no `options` key. -/
theorem execute_options_nested_and_flat_witness :
    dLookup (execute_data ("q") false none none none (some true) none none none
        (some 0) none none none none none none none) ("options") =
      some (JVal.obj [(("fullCount"), JVal.bool true)]) ∧
    dLookup (execute_data ("q") false none none none (some true) none none none
        (some 0) none none none none none none none) ("fullCount") =
      some (JVal.bool true) ∧
    dLookup (execute_data ("q") false none none none none none none none
        (some 0) none none none none none none none) ("options") = none := by
  have h1 := execute_options_nested_and_flat ("q") false none none none (some true)
    none none none (some 0) none none none none none none none _ _ rfl rfl
  have h2 := execute_options_nested_and_flat ("q") false none none none none
    none none none (some 0) none none none none none none none _ _ rfl rfl
  exact ⟨h1.2.2.1 (by simp [execute_options, optIns, dIns]), h1.2.2.2.1.1,
    h2.2.1 rfl⟩

/-- C2: a call to `AQL.execute` issued inside a transaction attaches to the
request a server-side script that passes the same query text, bind
variables and assembled payload to `db._query`, serialized as JSON
literals, and materializes the result with `.toArray()`; outside a
transaction the request carries no command. -/
theorem execute_transaction_command (is_transaction : Bool) (query : String)
    (count : Bool) (batch_size ttl : Option Int) (bind_vars : Option Dict)
    (full_count : Option Bool) (max_plans : Option Int)
    (optimizer_rules : Option (List String)) (cache : Option Bool)
    (memory_limit : Option Int) (fail_on_warning profile : Option Bool)
    (max_transaction_size max_warning_count intermediate_commit_count
      intermediate_commit_size satellite_sync_wait : Option Int)
    (read_collections write_collections : Option (List String)) :
    (is_transaction = true →
      (execute is_transaction query count batch_size ttl bind_vars full_count
          max_plans optimizer_rules cache memory_limit fail_on_warning profile
          max_transaction_size max_warning_count intermediate_commit_count
          intermediate_commit_size satellite_sync_wait read_collections
          write_collections).command =
        some ("db._query(" ++ dumps (JVal.str query) ++ ", "
          ++ dumps (jv_of_obj bind_vars) ++ ", "
          ++ dumps (JVal.obj (execute_data query count batch_size ttl bind_vars
              full_count max_plans optimizer_rules cache memory_limit
              fail_on_warning profile max_transaction_size max_warning_count
              intermediate_commit_count intermediate_commit_size
              satellite_sync_wait))
          ++ ").toArray()")) ∧
    (is_transaction = false →
      (execute is_transaction query count batch_size ttl bind_vars full_count
          max_plans optimizer_rules cache memory_limit fail_on_warning profile
          max_transaction_size max_warning_count intermediate_commit_count
          intermediate_commit_size satellite_sync_wait read_collections
          write_collections).command = none) := by
  constructor <;> intro h <;> subst h <;> rfl

/-- C2 witness: `execute(query, full_count=True)` inside a transaction
carries a script embedding the literal query string and an options object
containing `fullCount: true`; the same call outside a transaction carries
no script. -/
theorem execute_transaction_command_witness :
    (execute true ("FOR d IN c RETURN d") false none none none (some true) none
        none none (some 0) none none none none none none none none
        none).command =
      some ("db._query(\"FOR d IN c RETURN d\", null, \x7b\"query\": \"FOR d IN c RETURN d\", \"count\": false, \"memoryLimit\": 0, \"options\": \x7b\"fullCount\": true\x7d, \"fullCount\": true\x7d).toArray()") ∧
    (execute false ("FOR d IN c RETURN d") false none none none (some true) none
        none none (some 0) none none none none none none none none
        none).command = none := by
  have h := execute_transaction_command true ("FOR d IN c RETURN d") false none
    none none (some true) none none none (some 0) none none none none none none
    none none none
  have h2 := execute_transaction_command false ("FOR d IN c RETURN d") false none
    none none (some true) none none none (some 0) none none none none none none
    none none none
  refine ⟨?_, h2.2 rfl⟩
  rw [h.1 rfl]
  rfl

/-- C5: tracking-property renaming is lossless: for a wire body whose keys
are drawn from the six tracking wire fields, normalizing with
`_format_tracking` and re-denormalizing each resulting field through
`set_tracking`'s field mapping reproduces the original wire field names and
values (as a key-value map). -/
theorem tracking_roundtrip_lossless (body : Dict)
    (h : ∀ kv ∈ body, kv.1 ∈ (["enabled", "maxQueryStringLength", "maxSlowQueries",
      "slowQueryThreshold", "trackBindVars", "trackSlowQueries"] : List String))
    (k : String) :
    dLookup (set_tracking_data
      (dLookup (format_tracking body) ("enabled"))
      (dLookup (format_tracking body) ("max_slow_queries"))
      (dLookup (format_tracking body) ("slow_query_threshold"))
      (dLookup (format_tracking body) ("max_query_string_length"))
      (dLookup (format_tracking body) ("track_bind_vars"))
      (dLookup (format_tracking body) ("track_slow_queries"))) k = dLookup body k := by
  have f1 : dLookup (format_tracking body) ("enabled") = dLookup body ("enabled") := by
    simp [format_tracking, dLookup_dRename, dLookup_dErase]
  have hb2 : dLookup body ("max_slow_queries") = none :=
    dLookup_eq_none_of_keys_subset body _ _ h (by decide)
  have f2 : dLookup (format_tracking body) ("max_slow_queries") =
      dLookup body ("maxSlowQueries") := by
    simp [format_tracking, dLookup_dRename, dLookup_dErase, hb2, Option_elim_none_some]
  have hb3 : dLookup body ("slow_query_threshold") = none :=
    dLookup_eq_none_of_keys_subset body _ _ h (by decide)
  have f3 : dLookup (format_tracking body) ("slow_query_threshold") =
      dLookup body ("slowQueryThreshold") := by
    simp [format_tracking, dLookup_dRename, dLookup_dErase, hb3, Option_elim_none_some]
  have hb4 : dLookup body ("max_query_string_length") = none :=
    dLookup_eq_none_of_keys_subset body _ _ h (by decide)
  have f4 : dLookup (format_tracking body) ("max_query_string_length") =
      dLookup body ("maxQueryStringLength") := by
    simp [format_tracking, dLookup_dRename, dLookup_dErase, hb4, Option_elim_none_some]
  have hb5 : dLookup body ("track_bind_vars") = none :=
    dLookup_eq_none_of_keys_subset body _ _ h (by decide)
  have f5 : dLookup (format_tracking body) ("track_bind_vars") =
      dLookup body ("trackBindVars") := by
    simp [format_tracking, dLookup_dRename, dLookup_dErase, hb5, Option_elim_none_some]
  have hb6 : dLookup body ("track_slow_queries") = none :=
    dLookup_eq_none_of_keys_subset body _ _ h (by decide)
  have f6 : dLookup (format_tracking body) ("track_slow_queries") =
      dLookup body ("trackSlowQueries") := by
    simp [format_tracking, dLookup_dRename, dLookup_dErase, hb6, Option_elim_none_some]
  rw [f1, f2, f3, f4, f5, f6]
  by_cases h1 : ("enabled" : String) = k
  · subst h1
    simp [set_tracking_data, dLookup_optIns, dLookup, Option_elim_none_some]
  by_cases h2 : ("maxSlowQueries" : String) = k
  · subst h2
    simp [set_tracking_data, dLookup_optIns, dLookup, Option_elim_none_some]
  by_cases h3 : ("maxQueryStringLength" : String) = k
  · subst h3
    simp [set_tracking_data, dLookup_optIns, dLookup, Option_elim_none_some]
  by_cases h4 : ("slowQueryThreshold" : String) = k
  · subst h4
    simp [set_tracking_data, dLookup_optIns, dLookup, Option_elim_none_some]
  by_cases h5 : ("trackBindVars" : String) = k
  · subst h5
    simp [set_tracking_data, dLookup_optIns, dLookup, Option_elim_none_some]
  by_cases h6 : ("trackSlowQueries" : String) = k
  · subst h6
    simp [set_tracking_data, dLookup_optIns, dLookup, Option_elim_none_some]
  have hk : k ∉ (["enabled", "maxQueryStringLength", "maxSlowQueries",
      "slowQueryThreshold", "trackBindVars", "trackSlowQueries"] : List String) := by
    intro hmem
    simp only [List.mem_cons, List.not_mem_nil, or_false] at hmem
    rcases hmem with rfl | rfl | rfl | rfl | rfl | rfl
    · exact h1 rfl
    · exact h3 rfl
    · exact h2 rfl
    · exact h4 rfl
    · exact h5 rfl
    · exact h6 rfl
  rw [dLookup_eq_none_of_keys_subset body _ k h hk]
  simp [set_tracking_data, dLookup_optIns, dLookup, h1, h2, h3, h4, h5, h6]

/-- C5 witness: the wire body `{enabled: true, maxSlowQueries: 64}`
round-trips through normalization and re-denormalization. -/
theorem tracking_roundtrip_lossless_witness :
    dLookup (set_tracking_data
      (dLookup (format_tracking [(("enabled"), JVal.bool true),
        (("maxSlowQueries"), JVal.num 64)]) ("enabled"))
      (dLookup (format_tracking [(("enabled"), JVal.bool true),
        (("maxSlowQueries"), JVal.num 64)]) ("max_slow_queries"))
      (dLookup (format_tracking [(("enabled"), JVal.bool true),
        (("maxSlowQueries"), JVal.num 64)]) ("slow_query_threshold"))
      (dLookup (format_tracking [(("enabled"), JVal.bool true),
        (("maxSlowQueries"), JVal.num 64)]) ("max_query_string_length"))
      (dLookup (format_tracking [(("enabled"), JVal.bool true),
        (("maxSlowQueries"), JVal.num 64)]) ("track_bind_vars"))
      (dLookup (format_tracking [(("enabled"), JVal.bool true),
        (("maxSlowQueries"), JVal.num 64)]) ("track_slow_queries")))
      ("maxSlowQueries") = some (JVal.num 64) := by
  rw [tracking_roundtrip_lossless
    [(("enabled"), JVal.bool true), (("maxSlowQueries"), JVal.num 64)]
    (by decide) ("maxSlowQueries")]
  rfl

/-- C6: the `set_tracking` payload contains exactly the explicitly provided
fields and no others; in particular `set_tracking(max_slow_queries=5)`
sends the payload `{maxSlowQueries: 5}`. -/
theorem set_tracking_sends_exactly_provided
    (enabled max_slow_queries slow_query_threshold max_query_string_length
      track_bind_vars track_slow_queries : Option JVal) (d : Dict)
    (hd : d = set_tracking_data enabled max_slow_queries slow_query_threshold
      max_query_string_length track_bind_vars track_slow_queries) :
    dLookup d ("enabled") = enabled ∧
    dLookup d ("maxSlowQueries") = max_slow_queries ∧
    dLookup d ("maxQueryStringLength") = max_query_string_length ∧
    dLookup d ("slowQueryThreshold") = slow_query_threshold ∧
    dLookup d ("trackBindVars") = track_bind_vars ∧
    dLookup d ("trackSlowQueries") = track_slow_queries ∧
    (∀ k : String, ¬(k = "enabled" ∨ k = "maxSlowQueries" ∨
        k = "maxQueryStringLength" ∨ k = "slowQueryThreshold" ∨
        k = "trackBindVars" ∨ k = "trackSlowQueries") →
      dLookup d k = none) ∧
    set_tracking_data none (some (JVal.num 5)) none none none none =
      [(("maxSlowQueries"), JVal.num 5)] := by
  subst hd
  refine ⟨?_, ?_, ?_, ?_, ?_, ?_, ?_, rfl⟩
  · simp [set_tracking_data, dLookup_optIns, dLookup, Option_elim_none_some]
  · simp [set_tracking_data, dLookup_optIns, dLookup, Option_elim_none_some]
  · simp [set_tracking_data, dLookup_optIns, dLookup, Option_elim_none_some]
  · simp [set_tracking_data, dLookup_optIns, dLookup, Option_elim_none_some]
  · simp [set_tracking_data, dLookup_optIns, dLookup, Option_elim_none_some]
  · simp [set_tracking_data, dLookup_optIns, dLookup, Option_elim_none_some]
  · intro k hk
    push_neg at hk
    obtain ⟨n1, n2, n3, n4, n5, n6⟩ := hk
    simp [set_tracking_data, dLookup_optIns, dLookup, Ne.symm n1, Ne.symm n2,
      Ne.symm n3, Ne.symm n4, Ne.symm n5, Ne.symm n6]

/-- C6 witness: `set_tracking(max_slow_queries=5)` sends `{maxSlowQueries: 5}`
and, for instance, no `enabled` key. -/
theorem set_tracking_sends_exactly_provided_witness :
    dLookup (set_tracking_data none (some (JVal.num 5)) none none none none)
      ("enabled") = none ∧
    set_tracking_data none (some (JVal.num 5)) none none none none =
      [(("maxSlowQueries"), JVal.num 5)] := by
  have h := set_tracking_sends_exactly_provided none (some (JVal.num 5)) none
    none none none _ rfl
  exact ⟨h.1, h.2.2.2.2.2.2.2⟩

/-- C4: in `AQL.delete_function`, a response carrying error code 1582 with
`ignore_missing=True` yields `False` without raising; any other non-success
response raises `AQLFunctionDeleteError`; a successful deletion returns
`{deleted: count}` taken from the body's `deletedCount` field. -/
theorem delete_function_error_handling (s : Bool) (c : Option Int) (b : JVal)
    (im : Bool) :
    (c = some 1582 → im = true →
      delete_function_response_handler im ⟨s, c, b⟩ =
        Except.ok DeleteFunctionRet.falseRet) ∧
    (¬(c = some 1582 ∧ im = true) → s = false →
      delete_function_response_handler im ⟨s, c, b⟩ =
        Except.error PyExc.aqlFunctionDeleteError) ∧
    (∀ d v, ¬(c = some 1582 ∧ im = true) → s = true → b = JVal.obj d →
      dLookup d ("deletedCount") = some v →
      delete_function_response_handler im ⟨s, c, b⟩ =
        Except.ok (DeleteFunctionRet.deleted v)) := by
  refine ⟨?_, ?_, ?_⟩
  · intro h1 h2
    subst h1
    subst h2
    simp [delete_function_response_handler]
  · intro hn hs
    subst hs
    have hcond : (c == some 1582 && im) = false := by
      by_cases hc : c = some 1582
      · cases im with
        | true => exact absurd ⟨hc, rfl⟩ hn
        | false => simp
      · simp [beq_eq_false_iff_ne, hc]
    simp [delete_function_response_handler, hcond]
  · intro d v hn hs hb hl
    subst hs
    subst hb
    have hcond : (c == some 1582 && im) = false := by
      by_cases hc : c = some 1582
      · cases im with
        | true => exact absurd ⟨hc, rfl⟩ hn
        | false => simp
      · simp [beq_eq_false_iff_ne, hc]
    simp [delete_function_response_handler, hcond, asObj, hl]

/-- C4 witness: with the function-not-found code 1582, `ignore_missing=True`
returns `False`, `ignore_missing=False` raises `AQLFunctionDeleteError`, and
a clean success returns the deleted count. -/
theorem delete_function_error_handling_witness :
    delete_function_response_handler true ⟨false, some 1582, JVal.null⟩ =
      Except.ok DeleteFunctionRet.falseRet ∧
    delete_function_response_handler false ⟨false, some 1582, JVal.null⟩ =
      Except.error PyExc.aqlFunctionDeleteError ∧
    delete_function_response_handler false
        ⟨true, none, JVal.obj [(("deletedCount"), JVal.num 2)]⟩ =
      Except.ok (DeleteFunctionRet.deleted (JVal.num 2)) := by
  refine ⟨?_, ?_, ?_⟩
  · exact (delete_function_error_handling false (some 1582) JVal.null true).1
      rfl rfl
  · exact (delete_function_error_handling false (some 1582) JVal.null false).2.1
      (by simp) rfl
  · exact (delete_function_error_handling true none
      (JVal.obj [(("deletedCount"), JVal.num 2)]) false).2.2
      [(("deletedCount"), JVal.num 2)] (JVal.num 2) (by simp) rfl rfl rfl

/-- C9: in `AQL.delete_function` the error-code test precedes the success
test: any response with error code 1582 and `ignore_missing=True` returns
`False` even when the response reports success, so a successful response
carrying code 1582 never yields a deleted count. -/
theorem delete_function_code_check_precedes_success (s : Bool) (b : JVal) :
    delete_function_response_handler true ⟨s, some 1582, b⟩ =
      Except.ok DeleteFunctionRet.falseRet ∧
    ∀ v : JVal, ¬ (delete_function_response_handler true ⟨true, some 1582, b⟩ =
      Except.ok (DeleteFunctionRet.deleted v)) := by
  constructor
  · simp [delete_function_response_handler]
  · intro v
    simp [delete_function_response_handler]

/-- C7: a successful `AQL.explain` response yields the body's `plan` field
when present, and otherwise the body's `plans` value verbatim. -/
theorem explain_returns_plan_else_plans (b : Dict) (c : Option Int) :
    (∀ v, dLookup b ("plan") = some v →
      explain_response_handler ⟨true, c, JVal.obj b⟩ = Except.ok v) ∧
    (∀ w, dLookup b ("plan") = none → dLookup b ("plans") = some w →
      explain_response_handler ⟨true, c, JVal.obj b⟩ = Except.ok w) := by
  constructor
  · intro v hv
    simp [explain_response_handler, explain_on_success, asObj, hv]
  · intro w h0 hw
    simp [explain_response_handler, explain_on_success, asObj, h0, hw]

/-- C7 witness: a body with `plans: [...]` yields that list; a body with
`plan: {...}` yields that object. -/
theorem explain_returns_plan_else_plans_witness :
    explain_response_handler ⟨true, none,
        JVal.obj [(("plans"), JVal.arr [JVal.num 1])]⟩ =
      Except.ok (JVal.arr [JVal.num 1]) ∧
    explain_response_handler ⟨true, none,
        JVal.obj [(("plan"), JVal.obj [])]⟩ =
      Except.ok (JVal.obj []) := by
  constructor
  · exact (explain_returns_plan_else_plans [(("plans"), JVal.arr [JVal.num 1])]
      none).2 (JVal.arr [JVal.num 1]) rfl rfl
  · exact (explain_returns_plan_else_plans [(("plan"), JVal.obj [])] none).1
      (JVal.obj []) rfl

theorem raisesExactlyOnFailure_of_shape {α : Type} (e : PyExc)
    (succ : JVal → Except PyExc α) (h : Response → Except PyExc α)
    (hdef : ∀ s c b, h ⟨s, c, b⟩ = if !s then Except.error e else succ b)
    (hsucc : ∀ b, ¬ (succ b = Except.error e)) :
    raisesExactlyOnFailure h e := by
  constructor
  · intro s c b
    rw [hdef]
    cases s with
    | false => simp
    | true => simp [hsucc b]
  · intro s c c' b
    rw [hdef, hdef]

theorem explain_on_success_no_op_error (b : JVal) (e : PyExc)
    (hk : ¬ (PyExc.keyError = e)) (ht : ¬ (PyExc.typeError = e)) :
    ¬ (explain_on_success b = Except.error e) := by
  cases b with
  | obj d =>
    simp only [explain_on_success, asObj]
    rcases hp : dLookup d ("plan") with _ | v
    · rcases hq : dLookup d ("plans") with _ | w <;> simp [hp, hq, hk]
    · simp [hp]
  | null => simp [explain_on_success, asObj, ht]
  | bool x => simp [explain_on_success, asObj, ht]
  | num x => simp [explain_on_success, asObj, ht]
  | str x => simp [explain_on_success, asObj, ht]
  | arr xs => simp [explain_on_success, asObj, ht]

theorem validate_on_success_no_op_error (b : JVal) (e : PyExc)
    (ht : ¬ (PyExc.typeError = e)) :
    ¬ (validate_on_success b = Except.error e) := by
  cases b <;> simp [validate_on_success, asObj, ht]

theorem execute_on_success_no_error (b : JVal) (e : PyExc) :
    ¬ (execute_on_success b = Except.error e) := by
  simp [execute_on_success]

theorem kill_on_success_no_error (b : JVal) (e : PyExc) :
    ¬ (kill_on_success b = Except.error e) := by
  simp [kill_on_success]

theorem entries_on_success_no_error (b : JVal) (e : PyExc) :
    ¬ (entries_on_success b = Except.error e) := by
  simp [entries_on_success]

theorem queries_on_success_no_op_error (b : JVal) (e : PyExc)
    (ht : ¬ (PyExc.typeError = e)) :
    ¬ (queries_on_success b = Except.error e) := by
  cases b <;> simp [queries_on_success, ht]

theorem tracking_on_success_no_op_error (b : JVal) (e : PyExc)
    (ht : ¬ (PyExc.typeError = e)) :
    ¬ (tracking_on_success b = Except.error e) := by
  cases b <;> simp [tracking_on_success, asObj, ht]

theorem functions_result_no_op_error (d : Dict) (e : PyExc)
    (ht : ¬ (PyExc.typeError = e)) :
    ¬ (functions_result d = Except.error e) := by
  simp only [functions_result]
  rcases hr : dLookup d ("result") with _ | v
  · simp [hr]
  · cases v <;> simp [hr, ht]

theorem functions_on_success_no_op_error (b : JVal) (e : PyExc)
    (ht : ¬ (PyExc.typeError = e)) :
    ¬ (functions_on_success b = Except.error e) := by
  cases b with
  | obj d => simpa [functions_on_success] using functions_result_no_op_error d e ht
  | null => simpa [functions_on_success] using functions_result_no_op_error [] e ht
  | arr xs =>
    cases xs with
    | nil => simpa [functions_on_success] using functions_result_no_op_error [] e ht
    | cons y ys => simp [functions_on_success, ht]
  | bool x => simp [functions_on_success, ht]
  | num x => simp [functions_on_success, ht]
  | str x => simp [functions_on_success, ht]

theorem create_function_on_success_no_op_error (b : JVal) (e : PyExc)
    (hk : ¬ (PyExc.keyError = e)) (ht : ¬ (PyExc.typeError = e)) :
    ¬ (create_function_on_success b = Except.error e) := by
  cases b with
  | obj d =>
    simp only [create_function_on_success, asObj]
    rcases hr : dLookup d ("isNewlyCreated") with _ | v <;> simp [hr, hk]
  | null => simp [create_function_on_success, asObj, ht]
  | bool x => simp [create_function_on_success, asObj, ht]
  | num x => simp [create_function_on_success, asObj, ht]
  | str x => simp [create_function_on_success, asObj, ht]
  | arr xs => simp [create_function_on_success, asObj, ht]

theorem cache_properties_on_success_no_op_error (b : JVal) (e : PyExc)
    (hk : ¬ (PyExc.keyError = e)) (ht : ¬ (PyExc.typeError = e)) :
    ¬ (cache_properties_on_success b = Except.error e) := by
  cases b with
  | obj d =>
    simp only [cache_properties_on_success, asObj]
    rcases hm : dLookup d ("mode") with _ | m
    · simp [hm, hk]
    · rcases hr : dLookup d ("maxResults") with _ | r <;> simp [hm, hr, hk]
  | null => simp [cache_properties_on_success, asObj, ht]
  | bool x => simp [cache_properties_on_success, asObj, ht]
  | num x => simp [cache_properties_on_success, asObj, ht]
  | str x => simp [cache_properties_on_success, asObj, ht]
  | arr xs => simp [cache_properties_on_success, asObj, ht]

/-- C8: every operation of `AQL` and `AQLQueryCache` except
`delete_function` raises exactly its own error kind, precisely on
non-success responses, without inspecting the server error code;
`delete_function` is the one handler whose result depends on the
body-embedded error code. -/
theorem handlers_uniform_error_policy :
    raisesExactlyOnFailure explain_response_handler PyExc.aqlQueryExplainError ∧
    raisesExactlyOnFailure validate_response_handler PyExc.aqlQueryValidateError ∧
    raisesExactlyOnFailure execute_response_handler PyExc.aqlQueryExecuteError ∧
    raisesExactlyOnFailure kill_response_handler PyExc.aqlQueryKillError ∧
    raisesExactlyOnFailure queries_response_handler PyExc.aqlQueryListError ∧
    raisesExactlyOnFailure slow_queries_response_handler PyExc.aqlQueryListError ∧
    raisesExactlyOnFailure clear_slow_queries_response_handler PyExc.aqlQueryClearError ∧
    raisesExactlyOnFailure tracking_response_handler PyExc.aqlQueryTrackingGetError ∧
    raisesExactlyOnFailure set_tracking_response_handler PyExc.aqlQueryTrackingSetError ∧
    raisesExactlyOnFailure functions_response_handler PyExc.aqlFunctionListError ∧
    raisesExactlyOnFailure create_function_response_handler PyExc.aqlFunctionCreateError ∧
    raisesExactlyOnFailure cache_properties_response_handler PyExc.aqlCachePropertiesError ∧
    raisesExactlyOnFailure cache_configure_response_handler PyExc.aqlCacheConfigureError ∧
    raisesExactlyOnFailure cache_entries_response_handler PyExc.aqlCacheEntriesError ∧
    raisesExactlyOnFailure cache_clear_response_handler PyExc.aqlCacheClearError ∧
    ¬ (delete_function_response_handler true
        ⟨true, some 1582, JVal.obj [(("deletedCount"), JVal.num 1)]⟩ =
      delete_function_response_handler true
        ⟨true, none, JVal.obj [(("deletedCount"), JVal.num 1)]⟩) := by
  refine ⟨?_, ?_, ?_, ?_, ?_, ?_, ?_, ?_, ?_, ?_, ?_, ?_, ?_, ?_, ?_, ?_⟩
  · exact raisesExactlyOnFailure_of_shape _ explain_on_success _
      (fun s c b => rfl)
      (fun b => explain_on_success_no_op_error b _ (by decide) (by decide))
  · exact raisesExactlyOnFailure_of_shape _ validate_on_success _
      (fun s c b => rfl)
      (fun b => validate_on_success_no_op_error b _ (by decide))
  · exact raisesExactlyOnFailure_of_shape _ execute_on_success _
      (fun s c b => rfl) (fun b => execute_on_success_no_error b _)
  · exact raisesExactlyOnFailure_of_shape _ kill_on_success _
      (fun s c b => rfl) (fun b => kill_on_success_no_error b _)
  · exact raisesExactlyOnFailure_of_shape _ queries_on_success _
      (fun s c b => rfl)
      (fun b => queries_on_success_no_op_error b _ (by decide))
  · exact raisesExactlyOnFailure_of_shape _ queries_on_success _
      (fun s c b => rfl)
      (fun b => queries_on_success_no_op_error b _ (by decide))
  · exact raisesExactlyOnFailure_of_shape _ kill_on_success _
      (fun s c b => rfl) (fun b => kill_on_success_no_error b _)
  · exact raisesExactlyOnFailure_of_shape _ tracking_on_success _
      (fun s c b => rfl)
      (fun b => tracking_on_success_no_op_error b _ (by decide))
  · exact raisesExactlyOnFailure_of_shape _ tracking_on_success _
      (fun s c b => rfl)
      (fun b => tracking_on_success_no_op_error b _ (by decide))
  · exact raisesExactlyOnFailure_of_shape _ functions_on_success _
      (fun s c b => rfl)
      (fun b => functions_on_success_no_op_error b _ (by decide))
  · exact raisesExactlyOnFailure_of_shape _ create_function_on_success _
      (fun s c b => rfl)
      (fun b => create_function_on_success_no_op_error b _ (by decide) (by decide))
  · exact raisesExactlyOnFailure_of_shape _ cache_properties_on_success _
      (fun s c b => rfl)
      (fun b => cache_properties_on_success_no_op_error b _ (by decide) (by decide))
  · exact raisesExactlyOnFailure_of_shape _ cache_properties_on_success _
      (fun s c b => rfl)
      (fun b => cache_properties_on_success_no_op_error b _ (by decide) (by decide))
  · exact raisesExactlyOnFailure_of_shape _ entries_on_success _
      (fun s c b => rfl) (fun b => entries_on_success_no_error b _)
  · exact raisesExactlyOnFailure_of_shape _ kill_on_success _
      (fun s c b => rfl) (fun b => kill_on_success_no_error b _)
  · have e1 : delete_function_response_handler true
        ⟨true, some 1582, JVal.obj [(("deletedCount"), JVal.num 1)]⟩ =
        Except.ok DeleteFunctionRet.falseRet := rfl
    have e2 : delete_function_response_handler true
        ⟨true, none, JVal.obj [(("deletedCount"), JVal.num 1)]⟩ =
        Except.ok (DeleteFunctionRet.deleted (JVal.num 1)) := rfl
    intro hh
    rw [e1, e2] at hh
    simp at hh

/-- C8 witness: a failed explain response raises `AQLQueryExplainError`, and
a successful kill response does not raise `AQLQueryKillError`. -/
theorem handlers_uniform_error_policy_witness :
    explain_response_handler ⟨false, none, JVal.null⟩ =
      Except.error PyExc.aqlQueryExplainError ∧
    ¬ (kill_response_handler ⟨true, none, JVal.null⟩ =
      Except.error PyExc.aqlQueryKillError) := by
  constructor
  · exact (handlers_uniform_error_policy.1.1 false none JVal.null).mpr rfl
  · intro hh
    exact absurd
      ((handlers_uniform_error_policy.2.2.2.1.1 true none JVal.null).mp hh)
      (by decide)

/-- C9 witness: a response reporting success but carrying error code 1582
still returns `False` under `ignore_missing=True`. -/
theorem delete_function_code_check_precedes_success_witness :
    delete_function_response_handler true
        ⟨true, some 1582, JVal.obj [(("deletedCount"), JVal.num 3)]⟩ =
      Except.ok DeleteFunctionRet.falseRet :=
  (delete_function_code_check_precedes_success true
    (JVal.obj [(("deletedCount"), JVal.num 3)])).1
